import Mathlib

/-
Verification of the petfit authentication routes.

The embedding follows `src/backend/petfit/api/deps.py` and
`src/backend/petfit/api/routes/user_route.py`.  Collaborators that are part
of the repository but whose source is not available (value objects, use
cases, token helpers, schemas) are modelled from the specification and
marked as such in their doc comments.
-/

namespace PetFit

/-- A persisted user record (the `User` entity with its stored password hash). -/
structure StoredUser where
  id : String
  name : String
  email : String
  passwordHash : String
  role : String
  deriving Repr, DecidableEq

/-- An HTTPException as raised by the route handlers: a status code and a detail string. -/
structure HttpError where
  statusCode : Nat
  detail : String
  deriving Repr, DecidableEq

/-- Modelled from the spec: the Email and Password value objects
(`petfit.domain.value_objects`) and the password hashing helpers are not
under src/.  Per the spec their concrete rules are configuration supplied by
the implementer, so they are carried as explicit functions: email syntax
validation and normalization, the password strength policy, the one-way
hash, and verification of a plaintext against a stored hash, together with
the exception messages the route handlers surface via `str(e)`. -/
structure AuthConfig where
  emailValid : String → Bool
  normalizeEmail : String → String
  invalidEmailMsg : String
  passwordValid : String → Bool
  invalidPasswordMsg : String
  hash : String → String
  verify : String → String → Bool
  duplicateUserMsg : String

/-- The decoded JWT payload: the `sub` claim (absent or null modelled as
`none`) and the `exp` claim. -/
structure TokenPayload where
  sub : Option String
  exp : Nat
  deriving Repr, DecidableEq

/-- A bearer token as the `jose` library sees it: its payload, the secret it
was signed with, the algorithm, and whether its structure is intact. -/
structure Token where
  payload : TokenPayload
  signedWith : String
  alg : String
  wellFormed : Bool
  deriving Repr, DecidableEq

/-- The `jose` exceptions caught by `except JWTError` in deps.py:
`ExpiredSignatureError` (a subclass of `JWTError`) and every other
signature/structure failure. -/
inductive JoseError where
  | expiredSignature
  | invalid
  deriving Repr, DecidableEq

/-- `jwt.decode(token, SECRET_KEY, algorithms=[ALGORITHM])` from deps.py:
fails on a malformed structure or a signature that does not validate, fails
with `ExpiredSignatureError` when the `exp` claim is in the past, and
otherwise returns the payload. -/
def jwtDecode (tok : Token) (secret alg : String) (now : Nat) :
    Except JoseError TokenPayload :=
  if tok.wellFormed = false then .error .invalid
  else if tok.signedWith ≠ secret then .error .invalid
  else if tok.alg ≠ alg then .error .invalid
  else if tok.payload.exp < now then .error .expiredSignature
  else .ok tok.payload

/-- Modelled from the spec: `create_access_token` lives in
`petfit.api.security`, which is not under src/.  Per the spec the token
service issues a signed, self-contained token encoding the subject and an
expiration instant `now + ttl`. -/
def create_access_token (sub : String) (now ttl : Nat) (secret alg : String) : Token :=
  ⟨⟨some sub, now + ttl⟩, secret, alg, true⟩

/-- The `credentials_exception` of deps.py: HTTP 401 with detail
"Could not validate credentials". -/
def credentials_exception : HttpError :=
  ⟨401, "Could not validate credentials"⟩

/-- Modelled from the spec: `user_repo.get_current_user(user_id)` is a
repository method not under src/; per the spec the User Store exposes
`findById(id) -> User?`. -/
def get_current_user_method (store : List StoredUser) (uid : String) :
    Option StoredUser :=
  store.find? (fun u => u.id == uid)

/-- The `get_current_user` dependency of deps.py.  Returns the handler's
outcome together with a flag recording whether the user store was accessed.
Any `JWTError` from decoding, a missing or null `sub` claim, and an id that
does not resolve to a user all raise the same `credentials_exception`. -/
def get_current_user_dep (store : List StoredUser) (secret alg : String)
    (now : Nat) (tok : Token) : Except HttpError StoredUser × Bool :=
  match jwtDecode tok secret alg now with
  | .error _ => (.error credentials_exception, false)
  | .ok payload =>
      match payload.sub with
      | none => (.error credentials_exception, false)
      | some uid =>
          match get_current_user_method store uid with
          | none => (.error credentials_exception, true)
          | some u => (.ok u, true)

/-- Modelled from the spec: `LoginUserUseCase.execute` is not under src/.
Per the spec it looks the user up by email and verifies the plaintext
against the stored hash; the route's `if not user` check shows it returns
no user both when the email is unknown and when the password mismatches. -/
def loginUseCase (cfg : AuthConfig) (store : List StoredUser)
    (email pw : String) : Option StoredUser :=
  match store.find? (fun u => u.email == email) with
  | none => none
  | some u => if cfg.verify pw u.passwordHash then some u else none

/-- The failure a register use case can signal. -/
inductive UseCaseError where
  | duplicateUser
  deriving Repr, DecidableEq

/-- Modelled from the spec: `RegisterUserUseCase.execute` is not under src/.
Per the spec it fails with `DuplicateUserError` when the email already
exists in the User Store and otherwise persists the new user. -/
def registerUseCase (store : List StoredUser) (u : StoredUser) :
    Except UseCaseError (StoredUser × List StoredUser) :=
  if store.any (fun v => v.email == u.email) then .error .duplicateUser
  else .ok (u, store ++ [u])

/-- Modelled from the spec: `LogoutUserUseCase.execute` is not under src/.
Per the spec, tokens being stateless and no revocation list being in scope,
logout has no durable effect on the store. -/
def logoutUseCase (store : List StoredUser) (_uid : String) :
    List StoredUser :=
  store

/-- Modelled from the spec: the `UserOutput` schema
(`petfit.api.schemas.user_schema`) is not under src/.  Per the spec the
created user is returned without exposing the password hash, i.e. only the
public profile fields. -/
structure UserOutput where
  id : String
  name : String
  email : String
  role : String
  deriving Repr, DecidableEq

/-- Modelled from the spec: `UserOutput.from_entity` projects the entity
onto its public profile fields, dropping the password hash. -/
def UserOutput.from_entity (u : StoredUser) : UserOutput :=
  ⟨u.id, u.name, u.email, u.role⟩

/-- The `MessageUserResponse` returned by the register route. -/
structure MessageUserResponse where
  message : String
  user : UserOutput
  deriving Repr, DecidableEq

/-- The `TokenResponse` returned by the login route. -/
structure TokenResponse where
  access_token : Token
  token_type : String
  deriving Repr, DecidableEq

/-- The `register_user` route handler (user_route.py lines 39-59).  It
builds the `User` entity — evaluating `Email(data.email)` before
`Password(data.password)`, each of which can raise — then runs the use
case.  `PasswordValidationError` and `ValueError` are both mapped to HTTP
400 with the exception message.  The result is the response, the resulting
store, and a flag recording whether the store was accessed. -/
def register_user (cfg : AuthConfig) (store : List StoredUser)
    (name email password role freshId : String) :
    Except HttpError MessageUserResponse × List StoredUser × Bool :=
  if cfg.emailValid email = false then
    (.error ⟨400, cfg.invalidEmailMsg⟩, store, false)
  else if cfg.passwordValid password = false then
    (.error ⟨400, cfg.invalidPasswordMsg⟩, store, false)
  else
    let u : StoredUser :=
      ⟨freshId, name, cfg.normalizeEmail email, cfg.hash password, role⟩
    match registerUseCase store u with
    | .error .duplicateUser => (.error ⟨400, cfg.duplicateUserMsg⟩, store, true)
    | .ok (created, store2) =>
        (.ok ⟨"User registered successfully", UserOutput.from_entity created⟩,
          store2, true)

/-- The `login_user` route handler (user_route.py lines 73-87).
`Email(data.email)` is evaluated before `Password(data.password)`; an
`InvalidEmailError` (a `ValueError`) maps to HTTP 401 with the exception
message, a `PasswordValidationError` to HTTP 400.  A use case returning no
user — unknown email or wrong password alike — raises HTTP 401
"Invalid credentials"; otherwise a token is issued for the user's id.  The
flag records whether the store was accessed. -/
def login_user (cfg : AuthConfig) (store : List StoredUser)
    (email password : String) (now ttl : Nat) (secret alg : String) :
    Except HttpError TokenResponse × Bool :=
  if cfg.emailValid email = false then
    (.error ⟨401, cfg.invalidEmailMsg⟩, false)
  else if cfg.passwordValid password = false then
    (.error ⟨400, cfg.invalidPasswordMsg⟩, false)
  else
    match loginUseCase cfg store (cfg.normalizeEmail email) password with
    | none => (.error ⟨401, "Invalid credentials"⟩, true)
    | some u => (.ok ⟨create_access_token u.id now ttl secret alg, "bearer"⟩, true)

/-- The body returned by the logout route on success. -/
structure MessageResponse where
  message : String
  deriving Repr, DecidableEq

/-- The `logout_user` route handler (user_route.py lines 100-106): the
`get_current_user` dependency authenticates the caller, the logout use case
runs for the caller's id, and the handler returns
`{"message": "Logout successful"}`.  A failing dependency short-circuits
with its error before the handler body runs. -/
def logout_user (store : List StoredUser) (secret alg : String) (now : Nat)
    (tok : Token) : Except HttpError MessageResponse × List StoredUser :=
  match (get_current_user_dep store secret alg now tok).1 with
  | .error e => (.error e, store)
  | .ok u => (.ok ⟨"Logout successful"⟩, logoutUseCase store u.id)

/-- A Python exception as relevant to the `/me` route: `NameError` from an
unbound name, `ValueError`, or the `HTTPException` the handler raises. -/
inductive PyExc where
  | nameError (n : String)
  | valueError (msg : String)
  | httpException (e : HttpError)
  deriving Repr, DecidableEq

/-- The dict literal returned by the `/me` route (user_route.py lines
124-129): only id, name, email and role. -/
structure MeResponse where
  id : String
  name : String
  email : String
  role : String
  deriving Repr, DecidableEq

/-- The response the `/me` route would build from a use-case result
(user_route.py lines 124-129). -/
def meResponseOf (result : StoredUser) : MeResponse :=
  ⟨result.id, result.name, result.email, result.role⟩

/-- The names bound at module level in user_route.py: the imports (lines
1-24), `router`, and the four route functions (`get_current_user`,
imported on line 12, is rebound by the route definition on line 120).  No
binding for `user_repo` exists. -/
def userRouteGlobals : List String :=
  ["APIRouter", "HTTPException", "Depends", "OAuth2PasswordRequestForm",
   "RegisterUserUseCase", "LoginUserUseCase", "LogoutUserUseCase",
   "GetCurrentUserUseCase", "User", "Email", "Password",
   "PasswordValidationError", "uuid", "AsyncSession", "get_db_session",
   "get_user_repository", "SQLAlchemyUserRepository", "RegisterUserInput",
   "UserOutput", "MessageUserResponse", "TokenResponse",
   "create_access_token", "UserRepository", "router", "register_user",
   "login_user", "logout_user", "get_current_user"]

/-- The `try ... except ValueError as e` wrapper of the `/me` route: a
`ValueError` is turned into an HTTP 404, every other outcome — success or
any other exception — passes through. -/
def tryExceptValueError (body : Except PyExc MeResponse)
    (handler : String → Except PyExc MeResponse) : Except PyExc MeResponse :=
  match body with
  | .error (.valueError m) => handler m
  | r => r

/-- The `/me` route handler (user_route.py lines 120-131).  Its first
statement evaluates the name `user_repo`, which is bound neither locally
nor at module level, so Python raises `NameError` there.  The rest of the
body (the use case, its `execute()` call and the response dict) is
unreachable; it is abstracted as an arbitrary continuation `k`. -/
def me_route_handler (k : Except PyExc MeResponse) : Except PyExc MeResponse :=
  tryExceptValueError
    (if userRouteGlobals.contains "user_repo" then k
     else .error (.nameError "user_repo"))
    (fun m => .error (.httpException ⟨404, m⟩))

/-- A concrete email validator for witnesses: exactly one `@` with a
non-empty local part, a dotted domain, and no whitespace, per the spec's
email grammar. -/
def defaultEmailValid (s : String) : Bool :=
  let cs := s.toList
  cs.count '@' == 1 &&
  (cs.takeWhile (fun c => c ≠ '@')).length > 0 &&
  ((cs.dropWhile (fun c => c ≠ '@')).drop 1).contains '.' &&
  !cs.contains ' '

/-- A concrete email normalizer for witnesses: the identity, for inputs
already in normal form. -/
def defaultNormalizeEmail (s : String) : String :=
  s

/-- A concrete password policy for witnesses: at least eight characters
with a letter and a digit. -/
def defaultPasswordValid (s : String) : Bool :=
  s.toList.length ≥ 8 && s.toList.any Char.isDigit && s.toList.any Char.isAlpha

/-- A concrete hash for witnesses. -/
def defaultHash (p : String) : String :=
  "hashed:" ++ p

/-- A concrete verifier matching `defaultHash`. -/
def defaultVerify (p h : String) : Bool :=
  h == "hashed:" ++ p

/-- A concrete configuration for witnesses. -/
def defaultConfig : AuthConfig :=
  ⟨defaultEmailValid, defaultNormalizeEmail, "Invalid email format",
   defaultPasswordValid, "Password too weak", defaultHash, defaultVerify,
   "User already exists"⟩

/-- A concrete user record for witnesses. -/
def anaUser : StoredUser :=
  ⟨"u1", "Ana", "ana@example.com", "hashed:password1", "user"⟩

/-- C1: for login with a valid email string and a valid password string,
the failure when no user has the email and the failure when a user has the
email but the password does not verify are the identical response, HTTP 401
"Invalid credentials", so an observer cannot distinguish the two causes. -/
theorem c1_login_failures_indistinguishable (cfg : AuthConfig)
    (s1 s2 : List StoredUser) (e p : String) (now ttl : Nat)
    (secret alg : String)
    (he : cfg.emailValid e = true) (hp : cfg.passwordValid p = true)
    (h1 : s1.find? (fun u => u.email == cfg.normalizeEmail e) = none)
    (u2 : StoredUser)
    (h2 : s2.find? (fun u => u.email == cfg.normalizeEmail e) = some u2)
    (h2v : cfg.verify p u2.passwordHash = false) :
    (login_user cfg s1 e p now ttl secret alg).1
      = .error ⟨401, "Invalid credentials"⟩ ∧
    (login_user cfg s2 e p now ttl secret alg).1
      = (login_user cfg s1 e p now ttl secret alg).1 := by
  simp [login_user, loginUseCase, he, hp, h1, h2, h2v]

/-- C1 witness: an empty store versus a store holding Ana with a different
password. -/
theorem c1_witness :
    (login_user defaultConfig [] "ana@example.com" "password2" 0 3600
        "secret" "HS256").1 = .error ⟨401, "Invalid credentials"⟩ ∧
    (login_user defaultConfig [anaUser] "ana@example.com" "password2" 0 3600
        "secret" "HS256").1
      = (login_user defaultConfig [] "ana@example.com" "password2" 0 3600
          "secret" "HS256").1 :=
  c1_login_failures_indistinguishable defaultConfig [] [anaUser]
    "ana@example.com" "password2" 0 3600 "secret" "HS256"
    (by decide) (by decide) rfl anaUser (by decide) (by decide)

/-- C2: decoding a token issued by `create_access_token` for a subject id,
with the same secret and algorithm and at any time at or before its expiry,
returns exactly that id as the `sub` claim. -/
theorem c2_token_roundtrip (uid : String) (now ttl t : Nat)
    (secret alg : String) (h : t ≤ now + ttl) :
    jwtDecode (create_access_token uid now ttl secret alg) secret alg t
      = .ok ⟨some uid, now + ttl⟩ := by
  simp [jwtDecode, create_access_token, Nat.not_lt.mpr h]

/-- C2 witness: a token issued at time 0 with TTL 3600, decoded at time 100. -/
theorem c2_witness :
    jwtDecode (create_access_token "u1" 0 3600 "secret" "HS256")
        "secret" "HS256" 100 = .ok ⟨some "u1", 3600⟩ :=
  c2_token_roundtrip "u1" 0 3600 100 "secret" "HS256" (by decide)

/-- C9: for every possible continuation of the body past its first
statement, the `/me` route handler fails with the `NameError` for
`user_repo` and never returns a response. -/
theorem c9_me_route_always_fails (k : Except PyExc MeResponse) :
    me_route_handler k = .error (.nameError "user_repo") ∧
    ∀ r, me_route_handler k ≠ .ok r := by
  have h : me_route_handler k = .error (.nameError "user_repo") := by
    simp [me_route_handler, tryExceptValueError, userRouteGlobals]
  exact ⟨h, fun r hr => by simp [h] at hr⟩

/-- C9 witness: even a continuation that would return Ana's profile is
never reached. -/
theorem c9_witness :
    me_route_handler (.ok ⟨"u1", "Ana", "ana@example.com", "user"⟩)
      = .error (.nameError "user_repo") :=
  (c9_me_route_always_fails (.ok ⟨"u1", "Ana", "ana@example.com", "user"⟩)).1

/-- C10: a well-formed, correctly-signed, unexpired token whose payload has
no `sub` claim is rejected with the credentials exception without touching
the store, the exact same outcome as a malformed token. -/
theorem c10_missing_sub_same_as_invalid (store : List StoredUser)
    (secret alg : String) (now : Nat) (tok : Token)
    (hw : tok.wellFormed = true) (hs : tok.signedWith = secret)
    (ha : tok.alg = alg) (hexp : ¬ tok.payload.exp < now)
    (hsub : tok.payload.sub = none) :
    get_current_user_dep store secret alg now tok
      = (.error credentials_exception, false) ∧
    get_current_user_dep store secret alg now tok
      = get_current_user_dep store secret alg now
          ⟨⟨some "x", now + 1⟩, secret, alg, false⟩ := by
  constructor
  · simp [get_current_user_dep, jwtDecode, hw, hs, ha, hexp, hsub]
  · simp [get_current_user_dep, jwtDecode, hw, hs, ha, hexp, hsub]

/-- C10 witness: a signed, unexpired token with no `sub` claim. -/
theorem c10_witness :
    get_current_user_dep [anaUser] "secret" "HS256" 100
        ⟨⟨none, 200⟩, "secret", "HS256", true⟩
      = (.error credentials_exception, false) ∧
    get_current_user_dep [anaUser] "secret" "HS256" 100
        ⟨⟨none, 200⟩, "secret", "HS256", true⟩
      = get_current_user_dep [anaUser] "secret" "HS256" 100
          ⟨⟨some "x", 101⟩, "secret", "HS256", false⟩ :=
  c10_missing_sub_same_as_invalid [anaUser] "secret" "HS256" 100
    ⟨⟨none, 200⟩, "secret", "HS256", true⟩
    rfl rfl rfl (by decide) rfl

/-- C3 counterexample: in `get_current_user`, an expired but otherwise
valid token and an unexpired valid token whose subject resolves to no user
produce the identical response, HTTP 401 "Could not validate credentials";
there is no distinct `TokenExpiredError` outcome, and the expired-token
failure is indistinguishable from the user-not-found failure. -/
theorem c3_counterexample :
    (get_current_user_dep [anaUser] "secret" "HS256" 100
        ⟨⟨some "u1", 50⟩, "secret", "HS256", true⟩).1
      = (get_current_user_dep [anaUser] "secret" "HS256" 100
          ⟨⟨some "ghost", 200⟩, "secret", "HS256", true⟩).1 ∧
    (get_current_user_dep [anaUser] "secret" "HS256" 100
        ⟨⟨some "u1", 50⟩, "secret", "HS256", true⟩).1
      = .error ⟨401, "Could not validate credentials"⟩ := by
  constructor <;> rfl

/-- C3 amended: every expired token — well-formed and correctly signed —
is rejected by `get_current_user` with the uniform credentials exception
(HTTP 401 "Could not validate credentials") during decoding, before any
store access, so the failure arises from expiry and not from user lookup;
the response does not name expiry as the cause. -/
theorem c3_expired_rejected_before_lookup (store : List StoredUser)
    (secret alg : String) (now : Nat) (tok : Token)
    (hw : tok.wellFormed = true) (hs : tok.signedWith = secret)
    (ha : tok.alg = alg) (hexp : tok.payload.exp < now) :
    get_current_user_dep store secret alg now tok
      = (.error credentials_exception, false) := by
  simp [get_current_user_dep, jwtDecode, hw, hs, ha, hexp]

/-- C3 witness: Ana's store with a token that expired at time 50, checked
at time 100. -/
theorem c3_witness :
    get_current_user_dep [anaUser] "secret" "HS256" 100
        ⟨⟨some "u1", 50⟩, "secret", "HS256", true⟩
      = (.error credentials_exception, false) :=
  c3_expired_rejected_before_lookup [anaUser] "secret" "HS256" 100
    ⟨⟨some "u1", 50⟩, "secret", "HS256", true⟩ rfl rfl rfl (by decide)

/-- C4: in both the register and the login handler, the user store is
accessed only if the email string and the password string both passed
value-object validation; when either validation fails the store flag is
false and the register handler leaves the store unchanged. -/
theorem c4_validation_before_store (cfg : AuthConfig)
    (store : List StoredUser) (name email password role freshId : String)
    (now ttl : Nat) (secret alg : String)
    (h : cfg.emailValid email = false ∨ cfg.passwordValid password = false) :
    (register_user cfg store name email password role freshId).2.2 = false ∧
    (register_user cfg store name email password role freshId).2.1 = store ∧
    (login_user cfg store email password now ttl secret alg).2 = false := by
  rcases h with h | h
  · simp [register_user, login_user, h]
  · by_cases he : cfg.emailValid email = false
    · simp [register_user, login_user, he]
    · simp at he
      simp [register_user, login_user, he, h]

/-- C4 witness: a malformed email reaches neither store. -/
theorem c4_witness :
    (register_user defaultConfig [anaUser] "Bob" "not-an-email" "password2"
        "user" "u2").2.2 = false ∧
    (register_user defaultConfig [anaUser] "Bob" "not-an-email" "password2"
        "user" "u2").2.1 = [anaUser] ∧
    (login_user defaultConfig [anaUser] "not-an-email" "password2" 0 3600
        "secret" "HS256").2 = false :=
  c4_validation_before_store defaultConfig [anaUser] "Bob" "not-an-email"
    "password2" "user" "u2" 0 3600 "secret" "HS256" (Or.inl (by decide))

/-- C5: registering with valid inputs whose normalized email already exists
in the store fails with the duplicate-user error and leaves the store
unchanged: no new user is persisted. -/
theorem c5_duplicate_email_rejected (cfg : AuthConfig)
    (store : List StoredUser) (name email password role freshId : String)
    (he : cfg.emailValid email = true) (hp : cfg.passwordValid password = true)
    (hd : store.any (fun v => v.email == cfg.normalizeEmail email) = true) :
    register_user cfg store name email password role freshId
      = (.error ⟨400, cfg.duplicateUserMsg⟩, store, true) := by
  simp [register_user, registerUseCase, he, hp, hd]

/-- C5 witness: registering Ana's email a second time. -/
theorem c5_witness :
    register_user defaultConfig [anaUser] "Ana2" "ana@example.com"
        "password2" "user" "u2"
      = (.error ⟨400, "User already exists"⟩, [anaUser], true) :=
  c5_duplicate_email_rejected defaultConfig [anaUser] "Ana2"
    "ana@example.com" "password2" "user" "u2"
    (by decide) (by decide) (by decide)

/-- C6 counterexample: a valid, unexpired, correctly-signed token whose
subject resolves to no user is answered with HTTP 401
"Could not validate credentials" — the very same response as a
badly-signed token — and not with a distinct not-found error. -/
theorem c6_counterexample :
    (get_current_user_dep [anaUser] "secret" "HS256" 100
        ⟨⟨some "ghost", 200⟩, "secret", "HS256", true⟩).1
      = .error ⟨401, "Could not validate credentials"⟩ ∧
    (get_current_user_dep [anaUser] "secret" "HS256" 100
        ⟨⟨some "ghost", 200⟩, "secret", "HS256", true⟩).1
      = (get_current_user_dep [anaUser] "secret" "HS256" 100
          ⟨⟨some "u1", 200⟩, "wrong-secret", "HS256", true⟩).1 := by
  constructor <;> rfl

/-- C6 amended: for a valid, unexpired, correctly-signed token carrying
subject id `uid`, `get_current_user` looks `uid` up in the store; it fails
with the uniform credentials exception (HTTP 401, not a distinct not-found
error) when the id no longer resolves, and returns exactly the resolved
user otherwise. -/
theorem c6_unresolved_subject (store : List StoredUser)
    (secret alg : String) (now : Nat) (tok : Token) (uid : String)
    (hw : tok.wellFormed = true) (hs : tok.signedWith = secret)
    (ha : tok.alg = alg) (hexp : ¬ tok.payload.exp < now)
    (hsub : tok.payload.sub = some uid) :
    get_current_user_dep store secret alg now tok
      = (match get_current_user_method store uid with
         | none => (.error credentials_exception, true)
         | some u => (.ok u, true)) := by
  simp [get_current_user_dep, jwtDecode, hw, hs, ha, hexp, hsub]

/-- C6 witness: a token for the deleted id "ghost" against Ana's store. -/
theorem c6_witness :
    get_current_user_dep [anaUser] "secret" "HS256" 100
        ⟨⟨some "ghost", 200⟩, "secret", "HS256", true⟩
      = (match get_current_user_method [anaUser] "ghost" with
         | none => (.error credentials_exception, true)
         | some u => (.ok u, true)) :=
  c6_unresolved_subject [anaUser] "secret" "HS256" 100
    ⟨⟨some "ghost", 200⟩, "secret", "HS256", true⟩ "ghost"
    rfl rfl rfl (by decide) rfl

/-- C7: no successful response exposes the password hash.  The register
response is unchanged when the hash function is replaced by any other, and
the public projections used by the register response and the `/me` response
dict are invariant under any change of the stored hash. -/
theorem c7_no_hash_in_responses (cfg : AuthConfig) (h2 : String → String)
    (store : List StoredUser) (name email password role freshId : String)
    (u : StoredUser) (hh : String) :
    (register_user cfg store name email password role freshId).1
      = (register_user { cfg with hash := h2 } store name email password
          role freshId).1 ∧
    UserOutput.from_entity { u with passwordHash := hh }
      = UserOutput.from_entity u ∧
    meResponseOf { u with passwordHash := hh } = meResponseOf u := by
  refine ⟨?_, rfl, rfl⟩
  by_cases he : cfg.emailValid email = false
  · simp [register_user, he]
  · simp at he
    by_cases hp : cfg.passwordValid password = false
    · simp [register_user, he, hp]
    · simp at hp
      by_cases hd : store.any (fun v => v.email == cfg.normalizeEmail email) = true
      · simp [register_user, registerUseCase, he, hp, hd]
      · rw [Bool.not_eq_true] at hd
        simp [register_user, registerUseCase, he, hp, hd, UserOutput.from_entity]

/-- C7 witness: a fresh registration under two different hash functions,
and Ana's record under a changed stored hash. -/
theorem c7_witness :
    (register_user defaultConfig [] "Ana" "ana@example.com"
        "password1" "user" "u1").1
      = (register_user { defaultConfig with hash := fun p => p } []
          "Ana" "ana@example.com" "password1" "user" "u1").1 ∧
    UserOutput.from_entity { anaUser with passwordHash := "other" }
      = UserOutput.from_entity anaUser ∧
    meResponseOf { anaUser with passwordHash := "other" }
      = meResponseOf anaUser :=
  c7_no_hash_in_responses defaultConfig (fun p => p) [] "Ana"
    "ana@example.com" "password1" "user" "u1" anaUser "other"

/-- C8: for any authenticated caller — a token the dependency accepts —
the logout handler returns the uniform acknowledgment
"Logout successful" and leaves the store unchanged, and a repeated call on
the resulting store returns the same acknowledgment again. -/
theorem c8_logout_no_effect (store : List StoredUser) (secret alg : String)
    (now : Nat) (tok : Token) (u : StoredUser)
    (h : (get_current_user_dep store secret alg now tok).1 = .ok u) :
    logout_user store secret alg now tok
      = (.ok ⟨"Logout successful"⟩, store) ∧
    logout_user (logout_user store secret alg now tok).2 secret alg now tok
      = (.ok ⟨"Logout successful"⟩, store) := by
  constructor
  · simp [logout_user, h, logoutUseCase]
  · simp [logout_user, h, logoutUseCase]

/-- C8 witness: Ana logs out twice with a valid token. -/
theorem c8_witness :
    logout_user [anaUser] "secret" "HS256" 100
        ⟨⟨some "u1", 200⟩, "secret", "HS256", true⟩
      = (.ok ⟨"Logout successful"⟩, [anaUser]) ∧
    logout_user
        (logout_user [anaUser] "secret" "HS256" 100
          ⟨⟨some "u1", 200⟩, "secret", "HS256", true⟩).2
        "secret" "HS256" 100 ⟨⟨some "u1", 200⟩, "secret", "HS256", true⟩
      = (.ok ⟨"Logout successful"⟩, [anaUser]) :=
  c8_logout_no_effect [anaUser] "secret" "HS256" 100
    ⟨⟨some "u1", 200⟩, "secret", "HS256", true⟩ anaUser rfl

end PetFit
